import Mathlib

/-!
Verification development for the store-synthesis pipeline of the
ObsidiaanShopifyStoreBuilder backend.

The Python sources are shallowly embedded as pure Lean functions.  External
services (the generative-text API, the image-synthesis API, the HTTP layer,
the database) are modelled as oracles: records of the responses the service
would have produced during one run.  A Python `async` call that may raise is
embedded as a value of `Except String α`, where the `.error` case carries the
exception message; `await`ed sequencing is the `Except` monad bind, which
propagates the first raised exception exactly as `asyncio.gather` without
`return_exceptions=True` does.
-/

set_option maxRecDepth 8192

namespace StoreBuilder

/-- Raw image bytes, kept opaque (only equality and flow through the
pipeline matter). -/
abbrev Bytes := String

/-- Python string slicing `s[:n]`: the first n code points. -/
def pyTake (s : String) (n : Nat) : String := String.mk (s.data.take n)

/-- Python `s.lower()`, per code point. -/
def pyLower (s : String) : String := String.mk (s.data.map Char.toLower)

/-- Python `s.replace(' ', '')`: drop every space. -/
def pyStripSpaces (s : String) : String := String.mk (s.data.filter fun c => c != ' ')

/-! ## Data model (src/backend/app/scraper/product_scraper.py,
src/backend/app/ai/content_generator.py, src/backend/app/models/store.py) -/

/-- `ScrapedProduct` (product_scraper.py, lines 11-21).  `specifications` is a
string-keyed dict, embedded as an association list. -/
structure ScrapedProduct where
  title : String
  description : String
  price : Option String
  images : List String
  features : List String
  specifications : List (String × String)
  category : String
  brand : Option String
  rating : Option Nat
  reviews_count : Option Nat
deriving Repr, DecidableEq

/-- `ProductInfo` (content_generator.py, lines 10-16). -/
structure ProductInfo where
  title : String
  description : String
  features : List String
  specifications : List (String × String)
  category : String
  price_range : Option String
deriving Repr, DecidableEq

/-- An item of `faq_items`: a dict with `question` and `answer` keys. -/
structure FaqItem where
  question : String
  answer : String
deriving Repr, DecidableEq

/-- `GeneratedContent` (content_generator.py, lines 18-27).  `homepage_hero`
is a `Dict[str, str]`, embedded as an association list read with
`dict.get`-style lookup. -/
structure GeneratedContent where
  product_title : String
  product_description : String
  seo_title : String
  seo_description : String
  homepage_hero : List (String × String)
  about_page : String
  faq_items : List FaqItem
  product_benefits : List String
  keywords : List String
deriving Repr, DecidableEq

/-- `dict.get(key, default)` on a string-keyed dict embedded as an
association list. -/
def dictGetD (d : List (String × String)) (key dflt : String) : String :=
  match d.lookup key with
  | some v => v
  | none => dflt

/-! ## Content generator (src/backend/app/ai/content_generator.py)

Each of the six per-field generators awaits one chat-completion request and
then (except for the about page) runs `json.loads` on the response text,
catching only `json.JSONDecodeError`.  The oracle for one such call records
which of the three observable outcomes occurred:

* the awaited API request itself raised (timeout, transport or HTTP error) —
  nothing catches this inside the generator;
* the response text parsed as JSON of the shape the call site expects
  (`ok`, carrying the parsed value);
* the response text failed JSON parsing (`badJson`, carrying the raw text),
  which triggers the call site's deterministic fallback.

A response that parses as JSON of an unexpected shape would raise a
`KeyError` later in `generate_complete_content`; like `raised` it is an
escaping exception, and the embedding folds it into `raised`. -/
inductive GenCall (α : Type) where
  | raised (msg : String)
  | ok (value : α)
  | badJson (raw : String)
deriving Repr

/-- The parsed JSON shape expected from `generate_product_copy`:
keys `title`, `description`, `benefits`. -/
structure ProductCopy where
  title : String
  description : String
  benefits : List String
deriving Repr, DecidableEq

/-- The parsed JSON shape expected from `generate_seo_content`:
keys `title`, `description`. -/
structure SeoCopy where
  title : String
  description : String
deriving Repr, DecidableEq

/-- One run's worth of generative-text service responses, one slot per
generation call issued by `generate_complete_content`.  The about-page call
performs no JSON parse at all: its raw response text is used verbatim, so its
slot is just `Except` (raised / returned text). -/
structure GenWorld where
  productCopy : GenCall ProductCopy
  seoContent : GenCall SeoCopy
  homepage : GenCall (List (String × String))
  aboutPage : Except String String
  faq : GenCall (List FaqItem)
  keywords : GenCall (List String)

/-- `AIContentGenerator.generate_product_copy` (lines 62-106).  On a JSON
parse failure the fallback keeps the original title, truncates the raw
response to 300 characters as description, and uses the first five scraped
features as benefits. -/
def generateProductCopy (w : GenWorld) (p : ProductInfo) : Except String ProductCopy :=
  match w.productCopy with
  | .raised e => .error e
  | .ok v => .ok v
  | .badJson content =>
      .ok { title := p.title
            description := pyTake content 300
            benefits := p.features.take 5 }

/-- `AIContentGenerator.generate_seo_content` (lines 108-139). -/
def generateSeoContent (w : GenWorld) (p : ProductInfo) : Except String SeoCopy :=
  match w.seoContent with
  | .raised e => .error e
  | .ok v => .ok v
  | .badJson _ =>
      .ok { title := p.title ++ " - Best Quality Online Store"
            description := "Shop " ++ p.title ++
              " with fast shipping and great prices. Premium quality guaranteed." }

/-- `AIContentGenerator.generate_homepage_content` (lines 141-173). -/
def generateHomepageContent (w : GenWorld) (p : ProductInfo) :
    Except String (List (String × String)) :=
  match w.homepage with
  | .raised e => .error e
  | .ok v => .ok v
  | .badJson _ =>
      .ok [("headline", "Premium " ++ p.category ++ " Collection"),
           ("subheadline", "Discover high-quality " ++ p.title ++
             " with fast shipping worldwide"),
           ("cta_text", "Shop Now"),
           ("features_headline", "Why Choose Us")]

/-- `AIContentGenerator.generate_about_page` (lines 175-197).  The response
content is returned directly: there is no JSON parse, no try/except and no
fallback in this generator. -/
def generateAboutPage (w : GenWorld) (_p : ProductInfo) : Except String String :=
  w.aboutPage

/-- `AIContentGenerator.generate_faq_content` (lines 199-240). -/
def generateFaqContent (w : GenWorld) (_p : ProductInfo) :
    Except String (List FaqItem) :=
  match w.faq with
  | .raised e => .error e
  | .ok v => .ok v
  | .badJson _ =>
      .ok [{ question := "What is your shipping policy?"
             answer := "We offer free shipping on orders over $50. Standard delivery takes 3-7 business days." },
           { question := "What is your return policy?"
             answer := "We accept returns within 30 days of delivery for a full refund. Items must be in original condition." },
           { question := "Is this product authentic?"
             answer := "Yes, all our products are 100% authentic and come with a quality guarantee." }]

/-- `AIContentGenerator.generate_keywords` (lines 242-278). -/
def generateKeywords (w : GenWorld) (p : ProductInfo) : Except String (List String) :=
  match w.keywords with
  | .raised e => .error e
  | .ok v => .ok v
  | .badJson _ =>
      .ok [pyLower p.title,
           "best " ++ p.category,
           "buy " ++ p.title,
           p.category ++ " online",
           "premium " ++ p.category]

/-- `AIContentGenerator.generate_complete_content` (lines 35-60).  The six
tasks are awaited with `asyncio.gather(*tasks)` — `return_exceptions` is not
set, so the first exception among the tasks is re-raised to the caller; the
`Except` monad bind reproduces that propagation.  On success the result
record is assembled from the six task results. -/
def generateCompleteContent (w : GenWorld) (p : ProductInfo) :
    Except String GeneratedContent := do
  let copy ← generateProductCopy w p
  let seo ← generateSeoContent w p
  let hero ← generateHomepageContent w p
  let about ← generateAboutPage w p
  let faqItems ← generateFaqContent w p
  let kws ← generateKeywords w p
  pure { product_title := copy.title
         product_description := copy.description
         seo_title := seo.title
         seo_description := seo.description
         homepage_hero := hero
         about_page := about
         faq_items := faqItems
         product_benefits := copy.benefits
         keywords := kws }

/-- True unless the awaited API request of this call raised. -/
def GenCall.noRaise {α : Type} : GenCall α → Bool
  | .raised _ => false
  | .ok _ => true
  | .badJson _ => true

/-! ## Image enhancer (src/backend/app/ai/image_enhancer.py) -/

/-- `EnhancedImage` (image_enhancer.py, lines 20-25).  `processing_time` is a
wall-clock difference; it is kept as an abstract `Nat` read from the run's
world, since no property depends on its value. -/
structure EnhancedImage where
  original_url : String
  enhanced_url : String
  style : String
  processing_time : Nat
  enhancement_type : String
deriving Repr, DecidableEq

/-- The job status reported by one poll of
`GET /generations/generation_id` (lines 284-293): `COMPLETE` carries the
`generated_images` list (their URLs), `FAILED` is terminal, and `pending`
stands for every other status (PENDING, the loop keeps waiting). -/
inductive PollStatus where
  | complete (images : List String)
  | failed
  | pending
deriving Repr, DecidableEq

/-- The poll interval of `asyncio.sleep(10)` (line 296), in seconds. -/
def pollIntervalSeconds : Nat := 10

/-- `max_attempts = 30` (line 273). -/
def maxPollAttempts : Nat := 30

/-- The body of `_poll_generation_completion`s while-loop (lines 277-299).
`oracle n` is what the n-th GET of the job status produced: `.error` when
the request or `raise_for_status` raised, otherwise the reported status.
`fuel` is `max_attempts - attempt`, so the structural recursion mirrors the
`while attempt < max_attempts` bound exactly.  The second component is the
total number of seconds slept (one fixed-interval sleep per pending round).
Returns the first generated image URL on COMPLETE with output; raises
(returns `.error`) on COMPLETE without output, on FAILED, on a transport
error, and on attempt exhaustion. -/
def pollFrom (oracle : Nat → Except String PollStatus) :
    Nat → Nat → Except String String × Nat
  | _, 0 => (.error "Generation timeout", 0)
  | attempt, fuel + 1 =>
    match oracle attempt with
    | .error e => (.error e, 0)
    | .ok (.complete images) =>
      match images with
      | [] => (.error "No images generated", 0)
      | u :: _ => (.ok u, 0)
    | .ok .failed => (.error "Image generation failed", 0)
    | .ok .pending =>
      let rest := pollFrom oracle (attempt + 1) fuel
      (rest.1, pollIntervalSeconds + rest.2)

/-- `LeonardoImageEnhancer._poll_generation_completion` (lines 264-299):
start at attempt 0 with the full attempt budget. -/
def pollGenerationCompletion (oracle : Nat → Except String PollStatus) :
    Except String String :=
  (pollFrom oracle 0 maxPollAttempts).1

/-- Total seconds spent sleeping during the poll loop. -/
def pollTotalSleep (oracle : Nat → Except String PollStatus) : Nat :=
  (pollFrom oracle 0 maxPollAttempts).2

/-- One pass's worth of image-synthesis service responses.  `submit` is the
`POST /generations` request (raises, or returns the extracted
`generationId`); `poll` feeds `_poll_generation_completion`; `fetch` is the
`_download_image` of the enhanced output URL (raises, or returns the
bytes). -/
structure PassWorld where
  submit : Except String String
  poll : Nat → Except String PollStatus
  fetch : Except String Bytes

/-- The try-block shared by `_enhance_image_quality`, `_remove_background`
and `_apply_style_enhancement` (lines 119-161, 171-206, 224-259): submit the
generation job, poll it to completion, download the resulting image.  The
three source functions differ only in the prompt payload sent to the
service, which is data consumed by the oracle, not control flow. -/
def transformPassBody (w : PassWorld) : Except String Bytes := do
  let _generationId ← w.submit
  let _url ← pollGenerationCompletion w.poll
  w.fetch

/-- `LeonardoImageEnhancer._enhance_image_quality` (lines 115-165): any
exception inside the pass is caught and the incoming `image_data` is
returned unchanged. -/
def enhanceImageQuality (w : PassWorld) (imageData : Bytes) : Bytes :=
  match transformPassBody w with
  | .ok enhanced => enhanced
  | .error _ => imageData

/-- `LeonardoImageEnhancer._remove_background` (lines 167-209): same
absorb-and-return-input error handling as the quality pass. -/
def removeBackground (w : PassWorld) (imageData : Bytes) : Bytes :=
  match transformPassBody w with
  | .ok enhanced => enhanced
  | .error _ => imageData

/-- `LeonardoImageEnhancer._apply_style_enhancement` (lines 211-262): the
style only selects the prompt sent to the service; errors are absorbed the
same way. -/
def applyStyleEnhancement (w : PassWorld) (imageData : Bytes) (_style : String) : Bytes :=
  match transformPassBody w with
  | .ok enhanced => enhanced
  | .error _ => imageData

/-- One image's worth of service responses for `enhance_single_image`:
the download of the original image, one `PassWorld` per transform pass, the
upload step (md5-named S3 URL, computed locally and total, lines 310-318),
and the wall-clock elapsed time read at return. -/
structure ImgWorld where
  download : Except String Bytes
  quality : PassWorld
  background : PassWorld
  stylePass : PassWorld
  upload : Bytes → String
  elapsed : Nat

/-- The try-block of `enhance_single_image` (lines 75-103): download the
original, run the requested passes in order (each pass's output feeding the
next), always run the style pass, upload, and tag `full_enhancement`. -/
def enhanceSingleImageBody (w : ImgWorld) (imageUrl style : String)
    (enhanceQuality removeBg : Bool) : Except String EnhancedImage := do
  let original ← w.download
  let afterQuality := if enhanceQuality then enhanceImageQuality w.quality original else original
  let afterBackground := if removeBg then removeBackground w.background afterQuality else afterQuality
  let finalImage := applyStyleEnhancement w.stylePass afterBackground style
  let enhancedUrl := w.upload finalImage
  pure { original_url := imageUrl
         enhanced_url := enhancedUrl
         style := style
         processing_time := w.elapsed
         enhancement_type := "full_enhancement" }

/-- `LeonardoImageEnhancer.enhance_single_image` (lines 63-113): if the
try-block raises, fall back to the original image URL, tagged
`fallback_original`. -/
def enhanceSingleImage (w : ImgWorld) (imageUrl style : String)
    (enhanceQuality removeBg : Bool) : EnhancedImage :=
  match enhanceSingleImageBody w imageUrl style enhanceQuality removeBg with
  | .ok img => img
  | .error _ =>
      { original_url := imageUrl
        enhanced_url := imageUrl
        style := style
        processing_time := w.elapsed
        enhancement_type := "fallback_original" }

/-- The task list built by the for-loop of `enhance_product_images`
(lines 44-53), gathered with `return_exceptions=True`: the i-th task is
`enhance_single_image` on the i-th URL (with `remove_background` left at its
default `False`).  `enhance_single_image` handles every exception internally
and always returns an `EnhancedImage` — it is a total function above — so
each gathered slot holds a value, embedded as `.ok`. -/
def gatherEnhanceTasks (ws : Nat → ImgWorld) (style : String) (enhanceQuality : Bool) :
    Nat → List String → List (Except String EnhancedImage)
  | _, [] => []
  | i, url :: rest =>
    .ok (enhanceSingleImage (ws i) url style enhanceQuality false) ::
      gatherEnhanceTasks ws style enhanceQuality (i + 1) rest

/-- `LeonardoImageEnhancer.enhance_product_images` (lines 35-61): truncate
the input to its first five URLs (`image_urls[:5]`, cost control), run one
enhancement task per URL, and keep the results that are `EnhancedImage`
instances (the isinstance filter of lines 56-59). -/
def enhanceProductImages (ws : Nat → ImgWorld) (imageUrls : List String)
    (style : String) (enhanceQuality : Bool) : List EnhancedImage :=
  let results := gatherEnhanceTasks ws style enhanceQuality 0 (imageUrls.take 5)
  results.filterMap fun r =>
    match r with
    | .ok img => some img
    | .error _ => none

/-! ## Store model and store-structure assembler
(src/backend/app/models/store.py, src/backend/app/services/store_generator.py) -/

/-- The `product` block of the assembled store document
(store_generator.py, lines 193-207). -/
structure ProductData where
  title : String
  description : String
  benefits : List String
  original_title : String
  original_description : String
  price : Option String
  features : List String
  specifications : List (String × String)
  category : String
  images_original : List String
  images_enhanced : List String
deriving Repr, DecidableEq

/-- `homepage_data.featured_product` (lines 212-217). -/
structure FeaturedProduct where
  title : String
  description : String
  image : Option String
  cta_text : String
deriving Repr, DecidableEq

/-- `homepage_data.features_section` (lines 218-221). -/
structure FeaturesSection where
  headline : String
  features : List String
deriving Repr, DecidableEq

/-- The `homepage` block (lines 210-222). -/
structure HomepageData where
  hero : List (String × String)
  featured_product : FeaturedProduct
  features_section : FeaturesSection
deriving Repr, DecidableEq

/-- A page with `title` and `content` keys (about, contact, shipping,
privacy). -/
structure TextPage where
  title : String
  content : String
deriving Repr, DecidableEq

/-- The FAQ page, with `title` and `items` keys. -/
structure FaqPage where
  title : String
  items : List FaqItem
deriving Repr, DecidableEq

/-- The `pages` block (lines 225-246). -/
structure PagesData where
  about : TextPage
  faq : FaqPage
  contact : TextPage
  shipping : TextPage
  privacy : TextPage
deriving Repr, DecidableEq

/-- The `seo` block (lines 249-254). -/
structure SeoData where
  title : String
  description : String
  keywords : List String
  og_image : Option String
deriving Repr, DecidableEq

/-- The `theme` block (lines 257-262). -/
structure ThemeData where
  style : String
  colors : List (String × String)
  fonts : List (String × String)
  layout : List (String × String)
deriving Repr, DecidableEq

/-- The complete assembled store document (lines 264-273). -/
structure StoreDocument where
  product : ProductData
  homepage : HomepageData
  pages : PagesData
  seo : SeoData
  theme : ThemeData
  generated_at : String
  store_name : String
  source_url : String
deriving Repr, DecidableEq

/-- The columns of the `Store` ORM model (store.py, lines 7-45) that the
pipeline reads or writes.  JSON dict columns are association lists; datetime
columns are ISO strings.  Columns never touched by the embedded code paths
(`shopify_theme_id`, `source_platform`, `store_pages`, `updated_at`,
`published_at`) are omitted. -/
structure StoreState where
  id : Nat
  user_id : Nat
  store_name : String
  shopify_store_url : Option String
  source_product_url : String
  theme_style : String
  brand_colors : List (String × String)
  status : String
  generation_progress : Nat
  error_message : Option String
  seo_title : Option String
  seo_description : Option String
  seo_keywords : List String
  created_at : String
  ai_generated_content : Option StoreDocument
  enhanced_images : List EnhancedImage

/-- The ambient effectful capabilities reachable from the service object: a
network-response oracle and a wall clock.  Every embedded operation that
performs I/O consults an oracle of this kind; a function that takes a
`World` and never reads it performs no network call and reads no clock. -/
structure World where
  netResponses : Nat → String
  clock : Nat

/-- `StoreGeneratorService._generate_contact_page_content`
(lines 306-324): a static HTML template whose only dynamic datum is the
store name, lower-cased with spaces removed, spliced into the support email
address.  The surrounding static copy is abbreviated here; it carries no
data. -/
def generateContactPageContent (store : StoreState) : String :=
  "<h2>Get in Touch</h2> <h3>Customer Service</h3> <p>Email: support@" ++
    pyStripSpaces (pyLower store.store_name) ++
    ".com</p> <h3>Business Hours</h3> <h3>Returns &amp; Exchanges</h3>"

/-- `StoreGeneratorService._generate_shipping_policy` (lines 326-350): a
fully static HTML template (abbreviated; no dynamic data). -/
def generateShippingPolicy : String :=
  "<h2>Shipping Information</h2> <h3>Processing Time</h3> <h3>Shipping Rates &amp; Delivery Estimates</h3> <h3>International Shipping</h3> <h3>Returns</h3>"

/-- `StoreGeneratorService._generate_privacy_policy` (lines 352-378): a
fully static HTML template (abbreviated; no dynamic data). -/
def generatePrivacyPolicy : String :=
  "<h2>Privacy Policy</h2> <h3>Information We Collect</h3> <h3>How We Use Your Information</h3> <h3>Information Sharing</h3> <h3>Data Security</h3> <h3>Contact Us</h3>"

/-- `StoreGeneratorService._generate_default_colors` (lines 380-408):
`color_schemes.get(theme_style, color_schemes[modern])`. -/
def generateDefaultColors (themeStyle : String) : List (String × String) :=
  if themeStyle = "luxury" then
    [("primary", "#1f2937"), ("secondary", "#d97706"), ("accent", "#92400e"),
     ("background", "#f9fafb"), ("text", "#111827")]
  else if themeStyle = "minimal" then
    [("primary", "#000000"), ("secondary", "#6b7280"), ("accent", "#9ca3af"),
     ("background", "#ffffff"), ("text", "#374151")]
  else
    [("primary", "#3b82f6"), ("secondary", "#64748b"), ("accent", "#f59e0b"),
     ("background", "#ffffff"), ("text", "#1f2937")]

/-- `StoreGeneratorService._get_theme_fonts` (lines 410-429). -/
def getThemeFonts (themeStyle : String) : List (String × String) :=
  if themeStyle = "luxury" then
    [("primary", "Playfair Display, serif"), ("secondary", "Source Sans Pro, sans-serif")]
  else if themeStyle = "minimal" then
    [("primary", "Helvetica Neue, sans-serif"), ("secondary", "Arial, sans-serif")]
  else
    [("primary", "Inter, sans-serif"), ("secondary", "System UI, sans-serif")]

/-- `StoreGeneratorService._get_theme_layout` (lines 431-453). -/
def getThemeLayout (themeStyle : String) : List (String × String) :=
  if themeStyle = "luxury" then
    [("header_style", "elegant"), ("product_layout", "showcase"), ("spacing", "spacious")]
  else if themeStyle = "minimal" then
    [("header_style", "simple"), ("product_layout", "minimal"), ("spacing", "tight")]
  else
    [("header_style", "clean"), ("product_layout", "grid"), ("spacing", "comfortable")]

/-- `StoreGeneratorService._build_store_structure` (lines 181-273).  The
`World` argument stands for the ambient effectful capabilities (network,
clock) available to the service object; the body never consults them —
every field is computed from the four explicit inputs.  `generated_at` is
`store.created_at.isoformat()`, i.e. a field of the input store record.
Python's `store.brand_colors or default` treats the empty dict as falsy. -/
def buildStoreStructure (_w : World) (store : StoreState)
    (scraped : ScrapedProduct) (gc : GeneratedContent)
    (enhancedImages : List EnhancedImage) : StoreDocument :=
  let productData : ProductData :=
    { title := gc.product_title
      description := gc.product_description
      benefits := gc.product_benefits
      original_title := scraped.title
      original_description := scraped.description
      price := scraped.price
      features := scraped.features
      specifications := scraped.specifications
      category := scraped.category
      images_original := scraped.images
      images_enhanced := enhancedImages.map fun img => img.enhanced_url }
  let homepageData : HomepageData :=
    { hero := gc.homepage_hero
      featured_product :=
        { title := gc.product_title
          description := pyTake gc.product_description 200 ++ "..."
          image :=
            match enhancedImages with
            | img :: _ => some img.enhanced_url
            | [] => scraped.images.head?
          cta_text := dictGetD gc.homepage_hero "cta_text" "Shop Now" }
      features_section :=
        { headline := dictGetD gc.homepage_hero "features_headline" "Why Choose Us"
          features := gc.product_benefits.take 3 } }
  let pagesData : PagesData :=
    { about := { title := "About Us", content := gc.about_page }
      faq := { title := "Frequently Asked Questions", items := gc.faq_items }
      contact := { title := "Contact Us", content := generateContactPageContent store }
      shipping := { title := "Shipping & Returns", content := generateShippingPolicy }
      privacy := { title := "Privacy Policy", content := generatePrivacyPolicy } }
  let seoData : SeoData :=
    { title := gc.seo_title
      description := gc.seo_description
      keywords := gc.keywords
      og_image :=
        match enhancedImages with
        | img :: _ => some img.enhanced_url
        | [] => none }
  let themeData : ThemeData :=
    { style := store.theme_style
      colors := if store.brand_colors = [] then generateDefaultColors store.theme_style
                else store.brand_colors
      fonts := getThemeFonts store.theme_style
      layout := getThemeLayout store.theme_style }
  { product := productData
    homepage := homepageData
    pages := pagesData
    seo := seoData
    theme := themeData
    generated_at := store.created_at
    store_name := store.store_name
    source_url := store.source_product_url }

/-! ## Pipeline orchestrator
(src/backend/app/services/store_generator.py, generate_complete_store) -/

/-- The conversion of `ScrapedProduct` to `ProductInfo`
(store_generator.py, lines 62-69). -/
def toProductInfo (scraped : ScrapedProduct) : ProductInfo :=
  { title := scraped.title
    description := scraped.description
    features := scraped.features
    specifications := scraped.specifications
    category := scraped.category
    price_range := scraped.price }

/-- `StoreGeneratorService._update_store_progress` (lines 455-462) applied
to a (state, progress-write log) pair: sets `generation_progress` and writes
the status text into the `error_message` column (the source reuses that
column for non-error status text), committing the new progress value, which
the log records. -/
def updateStoreProgress (sl : StoreState × List Nat) (progress : Nat)
    (message : String) : StoreState × List Nat :=
  ({ sl.1 with generation_progress := progress, error_message := some message },
   sl.2 ++ [progress])

/-- The except-block of `generate_complete_store` (lines 117-127): set
status to `error` and `error_message` to the exception text; the progress
column is not touched. -/
def setRunError (s : StoreState) (e : String) : StoreState :=
  { s with status := "error", error_message := some e }

/-- Everything one generation run consumes from the outside world: the
database lookup of the store row, the scraper result, the generative-text
responses, the per-image image-synthesis responses, and the ambient
`World`. -/
structure RunEnv where
  store : Option StoreState
  scrape : Except String ScrapedProduct
  genWorld : GenWorld
  imgWorlds : Nat → ImgWorld
  world : World

/-- `StoreGeneratorService.generate_complete_store` (lines 36-127).
Returns the final persisted store row (`none` when the store id resolves to
no row, in which case nothing is written), the ordered log of
`generation_progress` values committed during the run, and the function's
own outcome (`.error` when it re-raised).  Stage order, checkpoint values
and messages follow the source: 10 scrape, 25 content, 50 images (skipped
when the scraped image list is empty), 75 assembly, 90 finalize, then the
completed write with progress 100.  A scrape or content-generation
exception is caught by the except-block, which marks the store `error` and
re-raises.  Image enhancement and assembly are total functions of their
oracles, as established by their embeddings above. -/
def generateCompleteStore (env : RunEnv) : Option StoreState × List Nat × Except String Unit :=
  match env.store with
  | none => (none, [], .error "Store not found")
  | some store0 =>
    let sl1 := updateStoreProgress (store0, []) 10 "Scraping product data..."
    match env.scrape with
    | .error e => (some (setRunError sl1.1 e), sl1.2, .error e)
    | .ok scraped =>
      let sl2 := updateStoreProgress sl1 25 "Generating AI content..."
      match generateCompleteContent env.genWorld (toProductInfo scraped) with
      | .error e => (some (setRunError sl2.1 e), sl2.2, .error e)
      | .ok gc =>
        let sl3 := updateStoreProgress sl2 50 "Enhancing product images..."
        let enhancedImages :=
          if scraped.images = [] then []
          else enhanceProductImages env.imgWorlds scraped.images store0.theme_style true
        let sl4 := updateStoreProgress sl3 75 "Building store structure..."
        let storeData := buildStoreStructure env.world sl4.1 scraped gc enhancedImages
        let sl5 := updateStoreProgress sl4 90 "Finalizing store..."
        let final : StoreState :=
          { sl5.1 with
            ai_generated_content := some storeData
            enhanced_images := enhancedImages
            seo_title := some gc.seo_title
            seo_description := some gc.seo_description
            seo_keywords := gc.keywords
            status := "completed"
            generation_progress := 100
            error_message := none }
        (some final, sl5.2 ++ [100], .ok ())

/-! ## Publish endpoint (src/backend/app/api/stores.py, publish_store) -/

/-- The HTTP-level outcome of the publish endpoint. -/
inductive ApiResult where
  | httpError (statusCode : Nat) (detail : String)
  | accepted (message : String) (storeId : Nat)
deriving Repr, DecidableEq

/-- `publish_store` (stores.py, lines 130-157).  The argument is the result
of the store lookup (filtered by id and owning user).  The returned flag
records whether `_publish_store_background` was scheduled — that background
task is the only caller of `publish_to_shopify`, which makes every
commerce-platform call, so `false` means no platform call can occur for
this request. -/
def publishStoreEndpoint (store : Option StoreState) : ApiResult × Bool :=
  match store with
  | none => (.httpError 404 "Store not found", false)
  | some s =>
    if s.status ≠ "completed" then
      (.httpError 400 "Store must be completed before publishing", false)
    else
      (.accepted "Publishing started" s.id, true)

/-! ## Concrete fixtures used to evaluate the embedded operations -/

/-- A concrete product record. -/
def sampleProductInfo : ProductInfo :=
  { title := "Wireless Earbuds"
    description := "Great sound"
    features := ["Bluetooth", "Noise cancelling"]
    specifications := [("battery", "24h")]
    category := "Electronics"
    price_range := some "$49" }

/-- A run in which every one of the six generative-text requests raises a
transport error. -/
def allRaisedGenWorld : GenWorld :=
  { productCopy := .raised "Connection timed out"
    seoContent := .raised "Connection timed out"
    homepage := .raised "Connection timed out"
    aboutPage := .error "Connection timed out"
    faq := .raised "Connection timed out"
    keywords := .raised "Connection timed out" }

/-- A run in which every request answers, but no answer is valid JSON
(the about page needs no JSON and answers normally). -/
def allBadJsonGenWorld : GenWorld :=
  { productCopy := .badJson "plain text answer"
    seoContent := .badJson "plain text answer"
    homepage := .badJson "plain text answer"
    aboutPage := .ok "We are a small team devoted to quality."
    faq := .badJson "plain text answer"
    keywords := .badJson "plain text answer" }

/-- A transform pass whose job completes on the first poll. -/
def qualityPassWorld : PassWorld :=
  { submit := .ok "gen-q"
    poll := fun _ => .ok (.complete ["https://q.out"])
    fetch := .ok "qualitybytes" }

/-- A transform pass whose job never leaves the pending state: every one of
the 30 polls reports pending, so the loop exhausts its attempts. -/
def timeoutPassWorld : PassWorld :=
  { submit := .ok "gen-b"
    poll := fun _ => .ok PollStatus.pending
    fetch := .ok "bgbytes" }

/-- A style pass whose job completes on the first poll. -/
def stylePassWorld : PassWorld :=
  { submit := .ok "gen-s"
    poll := fun _ => .ok (.complete ["https://s.out"])
    fetch := .ok "stylebytes" }

/-- One image's run: the original downloads, the quality pass succeeds, the
background-removal pass times out, the style pass succeeds. -/
def chainAbortWorld : ImgWorld :=
  { download := .ok "originalbytes"
    quality := qualityPassWorld
    background := timeoutPassWorld
    stylePass := stylePassWorld
    upload := fun b => "https://bucket.s3.amazonaws.com/enhanced/" ++ b
    elapsed := 3 }

/-- A transform pass that succeeds immediately. -/
def okPassWorld : PassWorld :=
  { submit := .ok "gen-ok"
    poll := fun _ => .ok (.complete ["https://out.img"])
    fetch := .ok "okbytes" }

/-- One image's run in which every step succeeds. -/
def okImgWorld : ImgWorld :=
  { download := .ok "origbytes"
    quality := okPassWorld
    background := okPassWorld
    stylePass := okPassWorld
    upload := fun b => "https://bucket.s3.amazonaws.com/enhanced/" ++ b
    elapsed := 2 }

/-- A store row as the triggering endpoint creates it (status `generating`,
progress 0). -/
def sampleStore : StoreState :=
  { id := 1
    user_id := 1
    store_name := "Acme Gear"
    shopify_store_url := none
    source_product_url := "https://example.com/product"
    theme_style := "modern"
    brand_colors := []
    status := "generating"
    generation_progress := 0
    error_message := none
    seo_title := none
    seo_description := none
    seo_keywords := []
    created_at := "2024-01-01T00:00:00"
    ai_generated_content := none
    enhanced_images := [] }

/-- A scraped product with one original image. -/
def sampleScraped : ScrapedProduct :=
  { title := "Wireless Earbuds"
    description := "Great sound"
    price := some "$49"
    images := ["https://cdn.example.com/p1.jpg"]
    features := ["Bluetooth"]
    specifications := []
    category := "Electronics"
    brand := none
    rating := none
    reviews_count := none }

/-- A concrete synthesized-content record. -/
def sampleGC : GeneratedContent :=
  { product_title := "T"
    product_description := "D"
    seo_title := "S"
    seo_description := "SD"
    homepage_hero := [("cta_text", "Buy")]
    about_page := "A"
    faq_items := []
    product_benefits := ["b1"]
    keywords := ["k"] }

/-- A concrete ambient world. -/
def world0 : World :=
  { netResponses := fun _ => "", clock := 0 }

/-- A generation run whose scrape step raises. -/
def scrapeFailEnv : RunEnv :=
  { store := some sampleStore
    scrape := .error "Scrape failed"
    genWorld := allBadJsonGenWorld
    imgWorlds := fun _ => okImgWorld
    world := world0 }

/-- The store row `generate_complete_store` leaves behind on
`scrapeFailEnv`: progress stopped at the first checkpoint, status `error`,
message carrying the exception text. -/
def scrapeFailStore : StoreState :=
  { sampleStore with
    generation_progress := 10
    status := "error"
    error_message := some "Scrape failed" }

/-! ## Theorems -/

/-- C7: the publish operation is gated on store status being `completed`:
for every store whose status is not `completed`, the publish request is
rejected with a 400 precondition failure and the background publish task —
the only path to any commerce-platform call — is not scheduled. -/
theorem publish_gated_on_completed (s : StoreState) (h : s.status ≠ "completed") :
    publishStoreEndpoint (some s) =
      (.httpError 400 "Store must be completed before publishing", false) := by
  simp [publishStoreEndpoint, h]

/-- Witness for C7: a store still in status `generating` is rejected and no
platform call is made. -/
theorem publish_gated_on_completed_witness :
    publishStoreEndpoint (some sampleStore) =
      (.httpError 400 "Store must be completed before publishing", false) :=
  publish_gated_on_completed sampleStore (by decide)

/-- C8 counterexample: with no enhanced images and one original image, the
assembler picks the first original image for the homepage hero but leaves
the SEO block's `og_image` null — the SEO block does not fall back to the
first original image as the claim states. -/
theorem hero_selection_seo_counterexample :
    (buildStoreStructure world0 sampleStore sampleScraped sampleGC
        []).homepage.featured_product.image = some "https://cdn.example.com/p1.jpg" ∧
    (buildStoreStructure world0 sampleStore sampleScraped sampleGC
        []).seo.og_image = none := by
  constructor <;> rfl

/-- C8 (amended): the homepage hero image is the first enhanced image, else
the first original image, else null; the SEO block's `og_image` is the first
enhanced image, else null (no original-image fallback). -/
theorem hero_selection (w : World) (store : StoreState) (scraped : ScrapedProduct)
    (gc : GeneratedContent) (imgs : List EnhancedImage) :
    (buildStoreStructure w store scraped gc imgs).homepage.featured_product.image =
      (match imgs with
       | img :: _ => some img.enhanced_url
       | [] => scraped.images.head?) ∧
    (buildStoreStructure w store scraped gc imgs).seo.og_image =
      (match imgs with
       | img :: _ => some img.enhanced_url
       | [] => none) := by
  cases imgs <;> exact ⟨rfl, rfl⟩

/-- C9: the store-structure assembler is pure and deterministic.  The
`World` argument carries every ambient effectful capability (network
responses, clock); two runs on identical explicit inputs agree on the whole
`StoreDocument`, `generated_at` included (it is copied from the input
store's `created_at` column), whatever the ambient world does — so the
result depends on no network call and no clock read. -/
theorem buildStoreStructure_deterministic (w1 w2 : World) (store : StoreState)
    (scraped : ScrapedProduct) (gc : GeneratedContent)
    (imgs : List EnhancedImage) :
    buildStoreStructure w1 store scraped gc imgs =
      buildStoreStructure w2 store scraped gc imgs := rfl

/-- C1 counterexample: when every one of the six generation calls raises a
transport error, `generate_complete_content` does not return a populated
`GeneratedContent` — the exception propagates to its caller (nothing in the
generators catches anything but `json.JSONDecodeError`, and `asyncio.gather`
is used without `return_exceptions`). -/
theorem generateCompleteContent_raises_counterexample :
    generateCompleteContent allRaisedGenWorld sampleProductInfo =
      .error "Connection timed out" := rfl

/-- C1 (amended): `generate_complete_content` absorbs only JSON-parse
failures.  It returns a populated `GeneratedContent` exactly when none of
the six API calls raises; a raised exception (timeout, transport, HTTP)
propagates to the caller.  When every parseable field comes back as
unparseable text (and the about-page call, which has no parse and no
fallback, answers), every field is replaced by its deterministic fallback
computed from the `ProductInfo`. -/
theorem generateCompleteContent_fallbacks (w : GenWorld) (p : ProductInfo) :
    ((∃ c, generateCompleteContent w p = .ok c) ↔
      (w.productCopy.noRaise && w.seoContent.noRaise && w.homepage.noRaise &&
        w.aboutPage.isOk && w.faq.noRaise && w.keywords.noRaise) = true) ∧
    (∀ r1 r2 r3 a r4 r5,
      w.productCopy = .badJson r1 → w.seoContent = .badJson r2 →
      w.homepage = .badJson r3 → w.aboutPage = .ok a →
      w.faq = .badJson r4 → w.keywords = .badJson r5 →
      generateCompleteContent w p =
        .ok { product_title := p.title
              product_description := pyTake r1 300
              seo_title := p.title ++ " - Best Quality Online Store"
              seo_description := "Shop " ++ p.title ++
                " with fast shipping and great prices. Premium quality guaranteed."
              homepage_hero :=
                [("headline", "Premium " ++ p.category ++ " Collection"),
                 ("subheadline", "Discover high-quality " ++ p.title ++
                   " with fast shipping worldwide"),
                 ("cta_text", "Shop Now"),
                 ("features_headline", "Why Choose Us")]
              about_page := a
              faq_items :=
                [{ question := "What is your shipping policy?"
                   answer := "We offer free shipping on orders over $50. Standard delivery takes 3-7 business days." },
                 { question := "What is your return policy?"
                   answer := "We accept returns within 30 days of delivery for a full refund. Items must be in original condition." },
                 { question := "Is this product authentic?"
                   answer := "Yes, all our products are 100% authentic and come with a quality guarantee." }]
              product_benefits := p.features.take 5
              keywords :=
                [pyLower p.title,
                 "best " ++ p.category,
                 "buy " ++ p.title,
                 p.category ++ " online",
                 "premium " ++ p.category] }) := by
  obtain ⟨pc, sc, hp, ab, fq, kw⟩ := w
  constructor
  · cases pc <;> cases sc <;> cases hp <;> cases ab <;> cases fq <;> cases kw <;>
      simp [generateCompleteContent, generateProductCopy, generateSeoContent,
        generateHomepageContent, generateAboutPage, generateFaqContent,
        generateKeywords, GenCall.noRaise, Except.isOk, Except.toBool, bind,
        Except.bind, pure, Except.pure]
  · intro r1 r2 r3 a r4 r5 h1 h2 h3 h4 h5 h6
    subst h1; subst h2; subst h3; subst h4; subst h5; subst h6
    rfl

/-- Witness for C1 (amended): with every parseable response unparseable and
a normal about-page answer, the synthesized content is the full deterministic
fallback record. -/
theorem generateCompleteContent_fallbacks_witness :
    generateCompleteContent allBadJsonGenWorld sampleProductInfo =
      .ok { product_title := "Wireless Earbuds"
            product_description := "plain text answer"
            seo_title := "Wireless Earbuds - Best Quality Online Store"
            seo_description := "Shop Wireless Earbuds with fast shipping and great prices. Premium quality guaranteed."
            homepage_hero :=
              [("headline", "Premium Electronics Collection"),
               ("subheadline", "Discover high-quality Wireless Earbuds with fast shipping worldwide"),
               ("cta_text", "Shop Now"),
               ("features_headline", "Why Choose Us")]
            about_page := "We are a small team devoted to quality."
            faq_items :=
              [{ question := "What is your shipping policy?"
                 answer := "We offer free shipping on orders over $50. Standard delivery takes 3-7 business days." },
               { question := "What is your return policy?"
                 answer := "We accept returns within 30 days of delivery for a full refund. Items must be in original condition." },
               { question := "Is this product authentic?"
                 answer := "Yes, all our products are 100% authentic and come with a quality guarantee." }]
            product_benefits := ["Bluetooth", "Noise cancelling"]
            keywords :=
              ["wireless earbuds", "best Electronics", "buy Wireless Earbuds",
               "Electronics online", "premium Electronics"] } := by
  have h :=
    (generateCompleteContent_fallbacks allBadJsonGenWorld sampleProductInfo).2
      "plain text answer" "plain text answer" "plain text answer"
      "We are a small team devoted to quality."
      "plain text answer" "plain text answer" rfl rfl rfl rfl rfl rfl
  exact h.trans (by rfl)

/-- C6: if the scrape step fails, the run is pipeline-fatal: the store row
ends with status `error`, the error message set to the failure text, and
`generation_progress` frozen at the first checkpoint value 10 (the only one
committed before the scrape); the exception is re-raised. -/
theorem scrape_failure_fatal (env : RunEnv) (st0 : StoreState) (e : String)
    (h1 : env.store = some st0) (h2 : env.scrape = .error e) :
    ∃ st, (generateCompleteStore env).1 = some st ∧ st.status = "error" ∧
      st.generation_progress = 10 ∧ st.error_message = some e ∧
      (generateCompleteStore env).2.1 = [10] ∧
      (generateCompleteStore env).2.2 = .error e := by
  refine ⟨setRunError
    { st0 with generation_progress := 10,
               error_message := some "Scraping product data..." } e, ?_⟩
  simp [generateCompleteStore, h1, h2, updateStoreProgress, setRunError]

/-- Witness for C6: the concrete failing-scrape run ends in the expected
frozen store row. -/
theorem scrape_failure_fatal_witness :
    (generateCompleteStore scrapeFailEnv).1 = some scrapeFailStore ∧
    scrapeFailStore.status = "error" ∧
    scrapeFailStore.generation_progress = 10 ∧
    scrapeFailStore.error_message = some "Scrape failed" ∧
    (generateCompleteStore scrapeFailEnv).2.1 = [10] := by
  obtain ⟨st, ha, hb, hc, hd, he, hf⟩ :=
    scrape_failure_fatal scrapeFailEnv sampleStore "Scrape failed" rfl rfl
  have hst : st = scrapeFailStore := by
    have : some st = some scrapeFailStore := by rw [← ha]; rfl
    exact Option.some.inj this
  subst hst
  exact ⟨ha, hb, hc, hd, he⟩

/-- C4: within one generation run, the committed `generation_progress`
values are monotonically non-decreasing; when the run returns normally the
log ends at 100 and the persisted row has status `completed` with progress
100; when the run re-raises, any persisted row has status `error` and its
progress equals the last committed checkpoint (frozen — the except-block
never touches the progress column). -/
theorem run_progress_monotone (env : RunEnv) :
    List.Chain' (fun a b => a ≤ b) (generateCompleteStore env).2.1 ∧
    ((generateCompleteStore env).2.2 = .ok () →
      ∃ st, (generateCompleteStore env).1 = some st ∧ st.status = "completed" ∧
        st.generation_progress = 100 ∧
        (generateCompleteStore env).2.1.getLast? = some 100) ∧
    (∀ st e, (generateCompleteStore env).1 = some st →
      (generateCompleteStore env).2.2 = .error e →
      st.status = "error" ∧
      (generateCompleteStore env).2.1.getLast? = some st.generation_progress) := by
  obtain ⟨store?, scrape, genWorld, imgWorlds, world⟩ := env
  cases store? with
  | none =>
    refine ⟨by simp [generateCompleteStore], ?_, ?_⟩
    · intro h; exact absurd h (by simp [generateCompleteStore])
    · intro st e hst _; exact absurd hst (by simp [generateCompleteStore])
  | some store0 =>
    cases scrape with
    | error e0 =>
      refine ⟨by simp [generateCompleteStore, updateStoreProgress], ?_, ?_⟩
      · intro h
        exact absurd h (by simp [generateCompleteStore, updateStoreProgress])
      · intro st e hst herr
        simp only [generateCompleteStore, updateStoreProgress] at hst herr ⊢
        obtain rfl := Option.some.inj hst
        simp [setRunError]
    | ok scraped =>
      cases hgc : generateCompleteContent genWorld (toProductInfo scraped) with
      | error e0 =>
        refine ⟨?_, ?_, ?_⟩
        · simp [generateCompleteStore, updateStoreProgress, hgc]
        · intro h
          exact absurd h
            (by simp [generateCompleteStore, updateStoreProgress, hgc])
        · intro st e hst herr
          simp only [generateCompleteStore, updateStoreProgress, hgc] at hst herr ⊢
          obtain rfl := Option.some.inj hst
          simp [setRunError]
      | ok gc =>
        refine ⟨?_, ?_, ?_⟩
        · simp [generateCompleteStore, updateStoreProgress, hgc]
        · intro _
          simp [generateCompleteStore, updateStoreProgress, hgc]
        · intro st e hst herr
          exact absurd herr
            (by simp [generateCompleteStore, updateStoreProgress, hgc])

/-- Witness for C4: on the failing-scrape run the log is the single
checkpoint 10, it is trivially non-decreasing, and the persisted row is
frozen at 10 with status `error`. -/
theorem run_progress_monotone_witness :
    List.Chain' (fun a b => a ≤ b) (generateCompleteStore scrapeFailEnv).2.1 ∧
    scrapeFailStore.status = "error" ∧
    (generateCompleteStore scrapeFailEnv).2.1.getLast? =
      some scrapeFailStore.generation_progress := by
  obtain ⟨h1, _, h3⟩ := run_progress_monotone scrapeFailEnv
  obtain ⟨h4, h5⟩ := h3 scrapeFailStore "Scrape failed" rfl rfl
  exact ⟨h1, h4, h5⟩

/-- C2 counterexample: one image, quality pass succeeds, background-removal
pass exhausts its polls — yet the chain is not aborted and the result is
tagged `full_enhancement`, not `fallback_original`: each pass catches its
own exception and returns its input, so a pass failure never reaches
`enhance_single_image`s except-block.  The enhanced URL comes from the
style pass's output, showing the style pass still ran after the failure. -/
theorem pass_failure_not_fallback_counterexample :
    (transformPassBody chainAbortWorld.background).isOk = false ∧
    (enhanceSingleImage chainAbortWorld "https://example.com/p.jpg" "modern"
        true true).enhancement_type = "full_enhancement" ∧
    (enhanceSingleImage chainAbortWorld "https://example.com/p.jpg" "modern"
        true true).enhanced_url =
      "https://bucket.s3.amazonaws.com/enhanced/stylebytes" := by
  refine ⟨?_, ?_, ?_⟩ <;> decide

/-- C2 (amended): a failing pass is absorbed inside that pass, which returns
its input unchanged, and the remaining passes still run on that output —
already-completed pass output is preserved.  With the original downloaded,
the quality pass succeeded and the background-removal pass failed (by poll
exhaustion, job failure or transport error), the final image is the style
pass applied to the quality-pass output, and the result is tagged
`full_enhancement`; `fallback_original` only arises when an exception
escapes the whole chain (in practice: the initial download of the original
image). -/
theorem pass_failure_absorbed (w : ImgWorld) (url style : String) (b qb : Bytes)
    (hd : w.download = .ok b)
    (hq : transformPassBody w.quality = .ok qb)
    (hb : (transformPassBody w.background).isOk = false) :
    (enhanceSingleImage w url style true true).enhancement_type =
      "full_enhancement" ∧
    (enhanceSingleImage w url style true true).enhanced_url =
      w.upload (applyStyleEnhancement w.stylePass qb style) := by
  cases hbg : transformPassBody w.background with
  | ok v => rw [hbg] at hb; simp [Except.isOk, Except.toBool] at hb
  | error e =>
    constructor <;>
      simp [enhanceSingleImage, enhanceSingleImageBody, hd, enhanceImageQuality,
        hq, removeBackground, hbg, bind, Except.bind, pure, Except.pure]

/-- Witness for C2 (amended): the concrete chain with a timed-out
background-removal pass yields the style-enhanced quality output, tagged
`full_enhancement`. -/
theorem pass_failure_absorbed_witness :
    (enhanceSingleImage chainAbortWorld "https://example.com/p.jpg" "luxury"
        true true).enhancement_type = "full_enhancement" ∧
    (enhanceSingleImage chainAbortWorld "https://example.com/p.jpg" "luxury"
        true true).enhanced_url =
      chainAbortWorld.upload
        (applyStyleEnhancement chainAbortWorld.stylePass "qualitybytes" "luxury") :=
  pass_failure_absorbed chainAbortWorld "https://example.com/p.jpg" "luxury"
    "originalbytes" "qualitybytes" rfl rfl (by decide)

/-- The gathered-and-filtered task results, slot by slot: the batch has one
entry per (taken) input URL, and the k-th entry is `enhance_single_image`
of the k-th URL under the k-th image's own oracle — no other image's oracle
occurs in it. -/
theorem enhanceList_spec (ws : Nat → ImgWorld) (style : String) (q : Bool) :
    ∀ (urls : List String) (i : Nat),
      ((gatherEnhanceTasks ws style q i urls).filterMap fun r =>
        match r with
        | .ok img => some img
        | .error _ => none).length = urls.length ∧
      ∀ k, ((gatherEnhanceTasks ws style q i urls).filterMap fun r =>
        match r with
        | .ok img => some img
        | .error _ => none)[k]? =
          (urls[k]?).map fun u => enhanceSingleImage (ws (i + k)) u style q false := by
  intro urls
  induction urls with
  | nil => intro i; exact ⟨rfl, fun k => by simp [gatherEnhanceTasks]⟩
  | cons u rest ih =>
    intro i
    refine ⟨?_, ?_⟩
    · simp [gatherEnhanceTasks, List.filterMap_cons, (ih (i + 1)).1]
    · intro k
      cases k with
      | zero => simp [gatherEnhanceTasks, List.filterMap_cons]
      | succ k =>
        have h := (ih (i + 1)).2 k
        have harith : i + 1 + k = i + (k + 1) := by omega
        rw [harith] at h
        simpa [gatherEnhanceTasks, List.filterMap_cons] using h

/-- C3: for every list of image URLs of length at most 5,
`enhance_product_images` returns exactly one `EnhancedImage` per input URL,
and the k-th result is a function of the k-th URL and the k-th image's own
service responses alone — each image's failure is isolated to its own
result slot. -/
theorem enhance_one_result_per_input (ws : Nat → ImgWorld) (urls : List String)
    (style : String) (q : Bool) (h : urls.length ≤ 5) :
    (enhanceProductImages ws urls style q).length = urls.length ∧
    ∀ k, (enhanceProductImages ws urls style q)[k]? =
      (urls[k]?).map fun u => enhanceSingleImage (ws k) u style q false := by
  have htake : urls.take 5 = urls := List.take_of_length_le h
  have hspec := enhanceList_spec ws style q urls 0
  constructor
  · simpa [enhanceProductImages, htake] using hspec.1
  · intro k
    simpa [enhanceProductImages, htake] using hspec.2 k

/-- Witness for C3: two successful images give two results, the first being
the first URL's own enhancement. -/
theorem enhance_one_result_per_input_witness :
    (enhanceProductImages (fun _ => okImgWorld)
        ["https://a.img", "https://b.img"] "modern" true).length = 2 ∧
    (enhanceProductImages (fun _ => okImgWorld)
        ["https://a.img", "https://b.img"] "modern" true)[0]? =
      some (enhanceSingleImage okImgWorld "https://a.img" "modern" true false) := by
  obtain ⟨h1, h2⟩ := enhance_one_result_per_input (fun _ => okImgWorld)
    ["https://a.img", "https://b.img"] "modern" true (by decide)
  exact ⟨h1, (h2 0).trans (by rfl)⟩

/-- C10: an input list longer than 5 is silently truncated — the batch
equals the batch on the first five URLs, returns exactly 5 results, the
k-th (k < 5) being the k-th input URL's enhancement in input order; the
function is total, so no error is raised for the excess inputs. -/
theorem enhance_truncates_to_five (ws : Nat → ImgWorld) (urls : List String)
    (style : String) (q : Bool) (h : 5 < urls.length) :
    (enhanceProductImages ws urls style q).length = 5 ∧
    enhanceProductImages ws urls style q =
      enhanceProductImages ws (urls.take 5) style q ∧
    ∀ k, k < 5 → (enhanceProductImages ws urls style q)[k]? =
      (urls[k]?).map fun u => enhanceSingleImage (ws k) u style q false := by
  have hspec := enhanceList_spec ws style q (urls.take 5) 0
  refine ⟨?_, ?_, ?_⟩
  · have h1 : (enhanceProductImages ws urls style q).length = (urls.take 5).length := by
      simpa [enhanceProductImages] using hspec.1
    rw [h1, List.length_take]
    omega
  · simp [enhanceProductImages, List.take_take]
  · intro k hk
    have h2 := hspec.2 k
    simp only [Nat.zero_add] at h2
    have h3 : (urls.take 5)[k]? = urls[k]? := by simp [List.getElem?_take, hk]
    rw [h3] at h2
    simpa [enhanceProductImages] using h2

/-- Witness for C10: six URLs give five results, equal to the batch on the
first five. -/
theorem enhance_truncates_to_five_witness :
    (enhanceProductImages (fun _ => okImgWorld)
        ["u1", "u2", "u3", "u4", "u5", "u6"] "modern" true).length = 5 ∧
    enhanceProductImages (fun _ => okImgWorld)
        ["u1", "u2", "u3", "u4", "u5", "u6"] "modern" true =
      enhanceProductImages (fun _ => okImgWorld)
        (["u1", "u2", "u3", "u4", "u5", "u6"].take 5) "modern" true := by
  obtain ⟨h1, h2, _⟩ := enhance_truncates_to_five (fun _ => okImgWorld)
    ["u1", "u2", "u3", "u4", "u5", "u6"] "modern" true (by decide)
  exact ⟨h1, h2⟩

/-- Skipping pending rounds: while the oracle keeps answering pending, the
loop's result is the result of the loop restarted k polls later with k less
fuel. -/
theorem pollFrom_skip (oracle : Nat → Except String PollStatus) :
    ∀ (k fuel attempt : Nat), k ≤ fuel →
      (∀ j, j < k → oracle (attempt + j) = .ok .pending) →
      (pollFrom oracle attempt fuel).1 =
        (pollFrom oracle (attempt + k) (fuel - k)).1 := by
  intro k
  induction k with
  | zero => intro fuel attempt _ _; simp
  | succ k ih =>
    intro fuel attempt hk hp
    cases fuel with
    | zero => omega
    | succ f =>
      have h0 : oracle attempt = .ok .pending := by simpa using hp 0 (by omega)
      have hstep : (pollFrom oracle attempt (f + 1)).1 =
          (pollFrom oracle (attempt + 1) f).1 := by
        simp [pollFrom, h0]
      have hp2 : ∀ j, j < k → oracle (attempt + 1 + j) = .ok .pending := by
        intro j hj
        have h := hp (j + 1) (by omega)
        have e : attempt + 1 + j = attempt + (j + 1) := by omega
        rw [e]; exact h
      rw [hstep, ih f (attempt + 1) (by omega) hp2]
      have e1 : attempt + 1 + k = attempt + (k + 1) := by omega
      have e2 : f - k = f + 1 - (k + 1) := by omega
      rw [e1, e2]

/-- If every poll in the remaining budget answers pending, the loop exhausts
its attempts and raises the timeout failure. -/
theorem pollFrom_all_pending (oracle : Nat → Except String PollStatus) :
    ∀ (fuel attempt : Nat),
      (∀ j, j < fuel → oracle (attempt + j) = .ok .pending) →
      (pollFrom oracle attempt fuel).1 = .error "Generation timeout" := by
  intro fuel
  induction fuel with
  | zero => intro attempt _; rfl
  | succ f ih =>
    intro attempt hp
    have h0 : oracle attempt = .ok .pending := by simpa using hp 0 (by omega)
    have hp2 : ∀ j, j < f → oracle (attempt + 1 + j) = .ok .pending := by
      intro j hj
      have h := hp (j + 1) (by omega)
      have e : attempt + 1 + j = attempt + (j + 1) := by omega
      rw [e]; exact h
    simp [pollFrom, h0, ih (attempt + 1) hp2]

/-- The loop sleeps the fixed interval at most once per remaining attempt. -/
theorem pollFrom_sleep_le (oracle : Nat → Except String PollStatus) :
    ∀ (fuel attempt : Nat),
      (pollFrom oracle attempt fuel).2 ≤ pollIntervalSeconds * fuel := by
  intro fuel
  induction fuel with
  | zero => intro attempt; simp [pollFrom]
  | succ f ih =>
    intro attempt
    cases ho : oracle attempt with
    | error e => simp [pollFrom, ho]
    | ok st =>
      cases st with
      | complete imgs =>
        cases imgs with
        | nil => simp [pollFrom, ho]
        | cons u rest => simp [pollFrom, ho]
      | failed => simp [pollFrom, ho]
      | pending =>
        simp only [pollFrom, ho]
        rw [Nat.mul_succ]
        calc pollIntervalSeconds + (pollFrom oracle (attempt + 1) f).2
            ≤ pollIntervalSeconds + pollIntervalSeconds * f :=
              Nat.add_le_add_left (ih (attempt + 1)) _
          _ = pollIntervalSeconds * f + pollIntervalSeconds := Nat.add_comm _ _

/-- The loop's entire outcome depends only on the polls inside its attempt
budget. -/
theorem pollFrom_congr (oracle oracle2 : Nat → Except String PollStatus) :
    ∀ (fuel attempt : Nat),
      (∀ j, attempt ≤ j → j < attempt + fuel → oracle j = oracle2 j) →
      pollFrom oracle attempt fuel = pollFrom oracle2 attempt fuel := by
  intro fuel
  induction fuel with
  | zero => intro attempt _; rfl
  | succ f ih =>
    intro attempt hag
    have h0 : oracle attempt = oracle2 attempt :=
      hag attempt (Nat.le_refl _) (by omega)
    have hrec := ih (attempt + 1) fun j hj1 hj2 => hag j (by omega) (by omega)
    simp only [pollFrom]
    rw [h0, hrec]

/-- C5: the polling loop terminates on every execution (it is a total
function of the poll oracle) and is a bounded retry loop: if the first k
(k < 30) polls report pending, then at the k-th poll a COMPLETE status with
generated output returns the first output URL, a COMPLETE status with no
output raises the no-images failure, and a FAILED status raises the
generation failure; 30 pending polls exhaust the attempt budget and raise
the timeout failure; total sleep time is bounded by the fixed 10-second
interval times the 30-attempt budget; and the outcome never depends on any
poll beyond the 30th. -/
theorem poll_loop_spec (oracle : Nat → Except String PollStatus) :
    (∀ k, k < maxPollAttempts → (∀ j, j < k → oracle j = .ok .pending) →
      ((∀ u rest, oracle k = .ok (.complete (u :: rest)) →
          pollGenerationCompletion oracle = .ok u) ∧
       (oracle k = .ok (.complete []) →
          pollGenerationCompletion oracle = .error "No images generated") ∧
       (oracle k = .ok .failed →
          pollGenerationCompletion oracle = .error "Image generation failed"))) ∧
    ((∀ j, j < maxPollAttempts → oracle j = .ok .pending) →
      pollGenerationCompletion oracle = .error "Generation timeout") ∧
    pollTotalSleep oracle ≤ pollIntervalSeconds * maxPollAttempts ∧
    (∀ oracle2, (∀ j, j < maxPollAttempts → oracle j = oracle2 j) →
      pollGenerationCompletion oracle = pollGenerationCompletion oracle2) := by
  have hM : maxPollAttempts = 30 := rfl
  refine ⟨?_, ?_, ?_, ?_⟩
  · intro k hk hpend
    have hskip := pollFrom_skip oracle k maxPollAttempts 0 (by omega)
      (fun j hj => by simpa using hpend j hj)
    obtain ⟨m, hm⟩ : ∃ m, maxPollAttempts - k = m + 1 :=
      ⟨maxPollAttempts - k - 1, by omega⟩
    refine ⟨?_, ?_, ?_⟩
    · intro u rest hc
      simp only [pollGenerationCompletion]
      rw [hskip, hm]
      simp [pollFrom, Nat.zero_add, hc]
    · intro hc
      simp only [pollGenerationCompletion]
      rw [hskip, hm]
      simp [pollFrom, Nat.zero_add, hc]
    · intro hc
      simp only [pollGenerationCompletion]
      rw [hskip, hm]
      simp [pollFrom, Nat.zero_add, hc]
  · intro hp
    have h := pollFrom_all_pending oracle maxPollAttempts 0
      (fun j hj => by simpa using hp j hj)
    simpa [pollGenerationCompletion] using h
  · exact pollFrom_sleep_le oracle maxPollAttempts 0
  · intro oracle2 hag
    have h := pollFrom_congr oracle oracle2 maxPollAttempts 0
      (fun j hj1 hj2 => hag j (by simpa using hj2))
    simp [pollGenerationCompletion, h]

/-- Witness for C5: a job that never leaves pending exhausts the 30 polls
and raises the timeout failure. -/
theorem poll_loop_spec_witness :
    pollGenerationCompletion (fun _ => .ok PollStatus.pending) =
      .error "Generation timeout" :=
  (poll_loop_spec (fun _ => .ok PollStatus.pending)).2.1 fun _ _ => rfl

end StoreBuilder
